import Mathlib

/-!
# Verification of the chat request-validation-and-dispatch pipeline

Shallow embedding of the core of the `AI_Widget-` repository:

* `src/lib/validation.ts` — `validateSiteUrl`, `sanitizeMessage`
* `src/lib/api-auth.ts` — `validateApiKey` (source under `src/unnamed/part_002`)
* `src/lib/config.ts` — `chatbotConfig` (system prompt template, `contextMessages`)
* `src/app/api/chat/route.ts` — the `POST`/`GET` handlers, error classification

JavaScript strings are modelled as Lean `String`s (sequences of Unicode code
points); environment variables as `Option String` fields of an `Env` record
(`none` = unset); JSON request bodies as records with `Option` fields
(`none` = absent or of the wrong dynamic type); the asynchronous model call as
an explicit `ModelOutcome` parameter of the handler.
-/

/-- Process-wide configuration surface read from `process.env`.
`none` models an unset environment variable. -/
structure Env where
  OPENAI_API_KEY : Option String
  REQUIRE_API_KEY : Option String
  BUBBL_API_KEYS : Option String
  ALLOWED_SITE_DOMAINS : Option String
  DEFAULT_SITE_URL : Option String
  NODE_ENV : Option String
deriving DecidableEq

/-- The ECMAScript `WhiteSpace` / `LineTerminator` characters removed by
`String.prototype.trim` (space, tab, LF, VT, FF, CR, NBSP, BOM, the Unicode
space separators, and the line/paragraph separators). -/
def isJsWs (c : Char) : Bool :=
  c == ' ' || c == '\t' || c == '\n' || c == '\u000B' || c == '\u000C' ||
  c == '\r' || c == '\u00A0' || c == '\uFEFF' || c == '\u1680' ||
  ('\u2000' ≤ c && c ≤ '\u200A') || c == '\u2028' || c == '\u2029' ||
  c == '\u202F' || c == '\u205F' || c == '\u3000'

/-- JavaScript `String.prototype.trim` on the underlying code-point list:
drop whitespace from the front, then from the back. -/
def jsTrim (l : List Char) : List Char :=
  ((l.dropWhile isJsWs).reverse.dropWhile isJsWs).reverse

/-- `jsTrim` packaged on `String`. -/
def jsTrimStr (s : String) : String :=
  String.mk (jsTrim s.data)

/-- JavaScript `haystack.includes(needle)`. -/
def jsIncludes (haystack needle : String) : Bool :=
  decide (needle.data <:+: haystack.data)

/-- JavaScript `s.endsWith(suffix)`. -/
def jsEndsWith (s suffix : String) : Bool :=
  decide (suffix.data <:+ s.data)

/-- `src/lib/validation.ts` `sanitizeMessage`:
`message.trim().slice(0, 2000)` — trim whitespace, then keep at most the
first 2000 code points. -/
def sanitizeMessage (message : String) : String :=
  String.mk ((jsTrim message.data).take 2000)

/-- Accumulator version of JavaScript `String.prototype.split(',')`. -/
def splitCommaAux : List Char → List Char → List (List Char)
  | [], acc => [acc.reverse]
  | c :: rest, acc =>
    if c = ',' then acc.reverse :: splitCommaAux rest []
    else splitCommaAux rest (c :: acc)

/-- JavaScript `s.split(',')`: in particular `''.split(',') = ['']`. -/
def jsSplitComma (s : String) : List String :=
  (splitCommaAux s.data []).map String.mk

/-- `src/lib/api-auth.ts`: `process.env.BUBBL_API_KEYS?.split(',').map(k => k.trim()) || []`. -/
def keysOf (env : Env) : List String :=
  match env.BUBBL_API_KEYS with
  | none => []
  | some s => (jsSplitComma s).map jsTrimStr

/-- `src/lib/api-auth.ts` `validateApiKey`.

The per-key comparison in the source is a length precheck followed by
`timingSafeEqual(Buffer.from(validKey), Buffer.from(providedKey))` (a thrown
length mismatch of the UTF-8 buffers is caught and yields `false`); since
UTF-8 encoding is injective, that composite decides whole-string equality,
modelled here as the length guard conjoined with string equality.
`providedKey = none` models a missing header; the `if k = ""` branch models
the JavaScript falsiness of the empty string in `if (!providedKey)`. -/
def validateApiKey (env : Env) (providedKey : Option String) : Bool :=
  if env.REQUIRE_API_KEY = some "false" then
    true
  else
    match providedKey with
    | none => false
    | some k =>
      if k = "" then false
      else
        let validKeys := keysOf env
        if validKeys.isEmpty then false
        else validKeys.any (fun validKey => validKey.length == k.length && validKey == k)

/-- Parsed representation of a URL, mirroring the fields of the WHATWG `URL`
object that `validateSiteUrl` reads (`protocol` keeps its trailing colon,
exactly as in JavaScript). -/
structure ParsedUrl where
  protocol : String
  hostname : String
  pathname : String
  search : String
  hash : String
deriving DecidableEq

/-- Characters allowed after the first character of a URL scheme. -/
def isSchemeTailChar (c : Char) : Bool :=
  c.isAlphanum || c == '+' || c == '-' || c == '.'

/-- A URL scheme is a letter followed by letters, digits, `+`, `-`, `.`. -/
def validSchemeChars : List Char → Bool
  | [] => false
  | c :: rest => c.isAlpha && rest.all isSchemeTailChar

/-- Drop the `userinfo@` part of an authority, keeping what follows the last `@`. -/
def afterLastAt (l : List Char) : List Char :=
  (l.reverse.takeWhile (fun c => c != '@')).reverse

/-- Model of the WHATWG `new URL(url)` constructor on the fragment this system
exercises: absolute URLs without a base. A missing colon or an invalid scheme
throws (here: `none`). For the special schemes `http`/`https` the slashes after
the colon are skipped, the authority runs to the first `/ \ ? #`, userinfo and
port are dropped from the hostname, scheme and hostname are ASCII-lowercased,
an empty pathname reads back as `"/"`, and `search`/`hash` start at the first
`?` / `#`. Other schemes (e.g. `javascript:`) parse with an opaque path; only
their `protocol` is ever consulted. Percent-encoding, IPv6 hosts and
tab/newline stripping are outside the modelled fragment. -/
def parseUrl (url : String) : Option ParsedUrl :=
  let l := url.data
  let schemeCs := l.takeWhile (fun c => c != ':')
  match l.dropWhile (fun c => c != ':') with
  | [] => none
  | _ :: rest =>
    if !validSchemeChars schemeCs then none
    else
      let scheme := String.mk (schemeCs.map Char.toLower)
      if scheme == "http" || scheme == "https" then
        let rest1 := rest.dropWhile (fun c => c == '/' || c == '\\')
        let authority := rest1.takeWhile (fun c => !(c == '/' || c == '?' || c == '#' || c == '\\'))
        let pathEtc := rest1.dropWhile (fun c => !(c == '/' || c == '?' || c == '#' || c == '\\'))
        let hostCs := (afterLastAt authority).takeWhile (fun c => c != ':')
        if hostCs.isEmpty then none
        else
          let pathCs := pathEtc.takeWhile (fun c => !(c == '?' || c == '#'))
          let queryFrag := pathEtc.dropWhile (fun c => !(c == '?' || c == '#'))
          some {
            protocol := scheme ++ ":"
            hostname := String.mk (hostCs.map Char.toLower)
            pathname := if pathCs.isEmpty then "/" else String.mk pathCs
            search := String.mk (queryFrag.takeWhile (fun c => c != '#'))
            hash := String.mk (queryFrag.dropWhile (fun c => c != '#')) }
      else
        some { protocol := scheme ++ ":", hostname := "", pathname := String.mk rest,
               search := "", hash := "" }

/-- `process.env.DEFAULT_SITE_URL || 'https://bubbl.io'` (empty string is falsy). -/
def defaultSiteUrl (env : Env) : String :=
  match env.DEFAULT_SITE_URL with
  | none => "https://bubbl.io"
  | some s => if s = "" then "https://bubbl.io" else s

/-- `process.env.ALLOWED_SITE_DOMAINS?.split(',').map(d => d.trim()) || []`. -/
def allowedDomainsOf (env : Env) : List String :=
  match env.ALLOWED_SITE_DOMAINS with
  | none => []
  | some s => (jsSplitComma s).map jsTrimStr

/-- The production-only domain allow-list check of `validateSiteUrl`
(`src/lib/validation.ts` lines 29-48): outside production everything passes;
in production an empty or wildcard allow-list passes everything, otherwise the
hostname must equal an allowed domain or end in `"." ++ domain`. -/
def domainCheckPasses (env : Env) (hostname : String) : Bool :=
  if env.NODE_ENV = some "production" then
    let allowedDomains := allowedDomainsOf env
    if allowedDomains.isEmpty || allowedDomains.contains "*" then true
    else allowedDomains.any (fun domain => hostname == domain || jsEndsWith hostname ("." ++ domain))
  else true

/-- `pathname === '/' ? '' : pathname.replace(/\/$/, '')` — drop a lone or
trailing slash. -/
def normalizePathname (s : String) : String :=
  if s = "/" then ""
  else match s.data.getLast? with
    | some '/' => String.mk s.data.dropLast
    | _ => s

/-- `src/lib/validation.ts` `validateSiteUrl`: absent or empty input falls back
to the configured default; a parse failure or a non-http(s) protocol yields
`none`; in production the domain allow-list is applied; the result is
`protocol + '//' + hostname + normalized pathname` (query and hash dropped). -/
def validateSiteUrl (env : Env) (url : Option String) : Option String :=
  match url with
  | none => some (defaultSiteUrl env)
  | some u =>
    if u = "" then some (defaultSiteUrl env)
    else
      match parseUrl u with
      | none => none
      | some parsed =>
        if !(parsed.protocol == "http:" || parsed.protocol == "https:") then none
        else if !domainCheckPasses env parsed.hostname then none
        else some (parsed.protocol ++ "//" ++ parsed.hostname ++ normalizePathname parsed.pathname)

/-- The error taxonomy of `src/app/api/chat/route.ts`. -/
inductive ErrorCode where
  | VALIDATION_ERROR
  | RATE_LIMIT
  | MODEL_ERROR
  | TIMEOUT
  | UNKNOWN
  | AUTH_ERROR
deriving DecidableEq

/-- One entry of the `ERROR_RESPONSES` record in `route.ts`. -/
structure ApiError where
  code : ErrorCode
  message : String
  userMessage : String
  retryable : Bool
deriving DecidableEq

/-- The `ERROR_RESPONSES` table of `route.ts`. -/
def ERROR_RESPONSES : ErrorCode → ApiError
  | .VALIDATION_ERROR =>
    { code := .VALIDATION_ERROR, message := "Invalid request payload",
      userMessage := "Please provide a valid message.", retryable := false }
  | .RATE_LIMIT =>
    { code := .RATE_LIMIT, message := "Rate limit exceeded",
      userMessage := "I\x27m getting a lot of requests right now. Please wait a moment and try again.",
      retryable := true }
  | .MODEL_ERROR =>
    { code := .MODEL_ERROR, message := "Model unavailable",
      userMessage := "I\x27m temporarily unavailable. Please try again in a moment.",
      retryable := true }
  | .TIMEOUT =>
    { code := .TIMEOUT, message := "Request timeout",
      userMessage := "The request is taking too long. Please try again.", retryable := true }
  | .UNKNOWN =>
    { code := .UNKNOWN, message := "Unknown error",
      userMessage := "I\x27m having trouble connecting right now. Please try again!",
      retryable := true }
  | .AUTH_ERROR =>
    { code := .AUTH_ERROR, message := "Invalid or missing API key",
      userMessage := "Authentication failed. Please provide a valid API key.", retryable := false }

/-- A raw element of the caller-supplied `messages` array, before filtering.
`isNullish` models a falsy element; `role` is `some r` when the `role` field
is the string `r` (`none` for absent or non-string); `content` is `some s`
when the `content` field is the string `s` (`none` for absent or non-string). -/
structure RawMsg where
  isNullish : Bool
  role : Option String
  content : Option String
deriving DecidableEq

/-- The filter predicate of `route.ts` line 189:
`m && typeof m.content === 'string' && ['user', 'assistant'].includes(m.role)`. -/
def isValidHistoryMsg (m : RawMsg) : Bool :=
  !m.isNullish && m.content.isSome && (m.role == some "user" || m.role == some "assistant")

/-- `Array.isArray(messages) ? messages.filter(...) : []`. -/
def filterValidMessages (messages : Option (List RawMsg)) : List RawMsg :=
  match messages with
  | none => []
  | some ms => ms.filter isValidHistoryMsg

/-- The system prompt template from `src/lib/config.ts`
(`chatbotConfig.systemPrompt`), a large static instruction text parameterized
by the validated site URL. The claims under verification depend only on it
being a single system-role string determined by the site URL, so the text is
abridged here. -/
def systemPrompt (siteUrl : String) : String :=
  "You are the Bubbl AI Concierge, an intelligent assistant helping users on an event-based co-living platform. " ++
  "Check out [our listings](" ++ siteUrl ++ "/listings) to find a space."

/-- `chatbotConfig.model.contextMessages` from `src/lib/config.ts`. -/
def contextMessages : Nat := 5

/-- JavaScript `arr.slice(-n)`: the last `n` elements, except that
`slice(-0) = slice(0)` returns the whole array. -/
def jsSliceLast (l : List α) (n : Nat) : List α :=
  if n = 0 then l else l.drop (l.length - n)

/-- One element of the assembled conversation sent to the model provider. -/
inductive Entry where
  | system (content : String)
  | hist (m : RawMsg)
  | user (content : String)
deriving DecidableEq

/-- `route.ts` lines 187-200: the `conversationMessages` array — one system
message rendered from the template, the last `k` valid history entries
(invalid ones filtered out first), and the new sanitized user message. -/
def assembleConversation (siteUrl : String) (messages : Option (List RawMsg))
    (sanitizedMessage : String) (k : Nat) : List Entry :=
  Entry.system (systemPrompt siteUrl)
    :: (jsSliceLast (filterValidMessages messages) k).map Entry.hist
    ++ [Entry.user sanitizedMessage]

/-- `route.ts` line 228: `const responseThreadId = thread_id || requestId` —
an absent or falsy (empty-string) `thread_id` falls back to the request id. -/
def responseThreadId (thread_id : Option String) (requestId : String) : String :=
  match thread_id with
  | none => requestId
  | some t => if t = "" then requestId else t

/-- The JavaScript error value reaching the `catch` block: the fields the
classifier reads (`error?.message`, `error?.status`). -/
structure JsError where
  message : Option String
  status : Option Nat
deriving DecidableEq

/-- `error?.message?.includes(sub)` with optional chaining. -/
def optMsgIncludes (m : Option String) (sub : String) : Bool :=
  match m with
  | none => false
  | some s => jsIncludes s sub

/-- The error classification of the `catch` block in `route.ts` lines 253-269,
returning the `ERROR_RESPONSES` entry and the HTTP status code. -/
def classifyError (e : JsError) : ApiError × Nat :=
  if e.message = some "Request timeout" then (ERROR_RESPONSES .TIMEOUT, 504)
  else if optMsgIncludes e.message "rate limit" || e.status == some 429 then
    (ERROR_RESPONSES .RATE_LIMIT, 429)
  else if optMsgIncludes e.message "model" then (ERROR_RESPONSES .MODEL_ERROR, 503)
  else (ERROR_RESPONSES .UNKNOWN, 500)

/-- Outcome of `Promise.race([generatePromise, timeoutPromise])`: the provider
returned text, or a value was thrown (provider failure or the timeout's
`Error('Request timeout')`). -/
inductive ModelOutcome where
  | success (text : String)
  | threw (e : JsError)
deriving DecidableEq

/-- The parsed JSON request body fields the handler reads. A `none` in
`message` / `thread_id` / `site_url` models an absent or non-string field; a
`none` in `messages` models an absent or non-array field. -/
structure ChatBody where
  message : Option String
  messages : Option (List RawMsg)
  thread_id : Option String
  site_url : Option String
deriving DecidableEq

/-- The inbound HTTP request as the handler sees it: the `content-type`
header, the `x-api-key` header, and the parsed body (`none` = JSON parse
failure, i.e. `request.json().catch(() => null)` produced `null`). -/
structure ChatRequest where
  contentType : Option String
  apiKey : Option String
  body : Option ChatBody
deriving DecidableEq

/-- The response body fields relevant to the claims. -/
inductive RespBody where
  | err (code : ErrorCode) (userMessage : String) (retryable : Bool)
  | ok (message : String) (threadId : String)
deriving DecidableEq

/-- Observable result of one run of the `POST` handler: HTTP status, response
body, how many `logger.*` records and how many `logRequestMetrics` records the
run emitted, and the conversation sent to the provider (if reached). -/
structure PostResult where
  status : Nat
  body : RespBody
  loggerRecords : Nat
  metricRecords : Nat
  sentMessages : Option (List Entry)
deriving DecidableEq

/-- `!process.env.OPENAI_API_KEY` (unset or empty is falsy). -/
def openaiKeyMissing (env : Env) : Bool :=
  match env.OPENAI_API_KEY with
  | none => true
  | some s => s == ""

/-- `contentType?.includes('application/json')` on the `content-type` header. -/
def ctIncludesJson (contentType : Option String) : Bool :=
  match contentType with
  | none => false
  | some ct => jsIncludes ct "application/json"

/-- An error response spread from an `ERROR_RESPONSES` entry. -/
def errBody (c : ErrorCode) : RespBody :=
  RespBody.err c (ERROR_RESPONSES c).userMessage (ERROR_RESPONSES c).retryable

/-- The tail of the handler after all validations: assemble the conversation,
run the guarded model call, and produce either the success envelope
(`route.ts` lines 202-251; two `logger.info` records and one metrics record)
or the classified error envelope (`catch` block, lines 253-296; the
`logger.info('Processing message')` record, one `logger.error` record and one
metrics record). -/
def invokeStage (site_url : String) (body : ChatBody) (sanitizedMessage : String)
    (outcome : ModelOutcome) (requestId : String) : PostResult :=
  let conversationMessages := assembleConversation site_url body.messages sanitizedMessage contextMessages
  match outcome with
  | .threw e =>
    let c := classifyError e
    { status := c.2,
      body := RespBody.err c.1.code c.1.userMessage c.1.retryable,
      loggerRecords := 2, metricRecords := 1,
      sentMessages := some conversationMessages }
  | .success text =>
    let responseText :=
      if text = "" then
        "I\x27m here to help! Could you tell me more about what you\x27re looking for?"
      else text
    { status := 200,
      body := RespBody.ok responseText (responseThreadId body.thread_id requestId),
      loggerRecords := 2, metricRecords := 1,
      sentMessages := some conversationMessages }

/-- The `POST` handler of `src/app/api/chat/route.ts`, with each exit's HTTP
status, response body and emitted log/metric record counts. The branches, in
source order: missing provider credential (503, one `logger.error`), bad
content type (400, one `logger.warn`), JSON parse failure (400, one
`logger.warn`), API-key rejection (401, one `logger.security`), invalid
`site_url` (400, one `logger.warn`), absent/non-string/empty `message` (400,
one `logger.warn`), empty-after-sanitization message (400, no log call in the
source), and the model invocation stage. -/
def requestPOST (env : Env) (req : ChatRequest) (outcome : ModelOutcome)
    (requestId : String) : PostResult :=
  if openaiKeyMissing env then
    { status := 503,
      body := RespBody.err .MODEL_ERROR "Service configuration error. Please contact support." false,
      loggerRecords := 1, metricRecords := 0, sentMessages := none }
  else if !ctIncludesJson req.contentType then
    { status := 400, body := errBody .VALIDATION_ERROR,
      loggerRecords := 1, metricRecords := 0, sentMessages := none }
  else
    match req.body with
    | none =>
      { status := 400, body := errBody .VALIDATION_ERROR,
        loggerRecords := 1, metricRecords := 0, sentMessages := none }
    | some body =>
      if !validateApiKey env req.apiKey then
        { status := 401, body := errBody .AUTH_ERROR,
          loggerRecords := 1, metricRecords := 0, sentMessages := none }
      else
        match validateSiteUrl env body.site_url with
        | none =>
          { status := 400, body := RespBody.err .VALIDATION_ERROR "Invalid site URL provided." false,
            loggerRecords := 1, metricRecords := 0, sentMessages := none }
        | some site_url =>
          match body.message with
          | none =>
            { status := 400, body := errBody .VALIDATION_ERROR,
              loggerRecords := 1, metricRecords := 0, sentMessages := none }
          | some message =>
            if message = "" then
              { status := 400, body := errBody .VALIDATION_ERROR,
                loggerRecords := 1, metricRecords := 0, sentMessages := none }
            else
              let sanitizedMessage := sanitizeMessage message
              if sanitizedMessage.length = 0 then
                { status := 400,
                  body := RespBody.err .VALIDATION_ERROR "Please enter a message." false,
                  loggerRecords := 0, metricRecords := 0, sentMessages := none }
              else
                invokeStage site_url body sanitizedMessage outcome requestId

/-- The health-check payload of the `GET` handler in `route.ts` lines 319-331. -/
structure HealthStatus where
  service : String
  status : String
  version : String
  authRequired : Bool
deriving DecidableEq

/-- The `GET` handler: a fixed payload, independent of configuration. -/
def requestGET (_env : Env) : HealthStatus :=
  { service := "Bubbl Chatbot API", status := "active", version := "2.0.0",
    authRequired := false }

/-! ## Helper lemmas -/

lemma dropWhile_isJsWs_replicate_a (n : Nat) :
    List.dropWhile isJsWs (List.replicate n 'a') = List.replicate n 'a' := by
  cases n with
  | zero => rfl
  | succ m =>
    rw [List.replicate_succ, List.dropWhile_cons]
    simp [show isJsWs 'a' = false from by decide]

lemma jsTrim_replicate_a (n : Nat) :
    jsTrim (List.replicate n 'a') = List.replicate n 'a' := by
  unfold jsTrim
  rw [dropWhile_isJsWs_replicate_a, List.reverse_replicate, dropWhile_isJsWs_replicate_a,
    List.reverse_replicate]

/-! ## C4 — `sanitizeMessage` trims, then truncates to 2000 code points -/

/-- C4: `sanitizeMessage` first trims leading/trailing whitespace and then
truncates to at most 2000 code points; the result is always a prefix of the
trimmed input of length at most 2000, and when the trimmed form is longer
than 2000 characters the result has length exactly 2000. -/
theorem c4_sanitize_message (m : String) :
    sanitizeMessage m = String.mk ((jsTrimStr m).data.take 2000)
    ∧ (sanitizeMessage m).length ≤ 2000
    ∧ (sanitizeMessage m).data <+: (jsTrimStr m).data
    ∧ (2000 < (jsTrimStr m).length → (sanitizeMessage m).length = 2000) := by
  refine ⟨rfl, ?_, ?_, ?_⟩
  · show ((jsTrim m.data).take 2000).length ≤ 2000
    rw [List.length_take]
    exact Nat.min_le_left _ _
  · show (jsTrim m.data).take 2000 <+: jsTrim m.data
    exact List.take_prefix _ _
  · intro h
    show ((jsTrim m.data).take 2000).length = 2000
    have h' : 2000 < (jsTrim m.data).length := h
    rw [List.length_take]
    omega

/-- Witness for C4 at a concrete 2001-character message. -/
theorem c4_witness :
    (sanitizeMessage (String.mk (List.replicate 2001 'a'))).length = 2000 :=
  (c4_sanitize_message (String.mk (List.replicate 2001 'a'))).2.2.2 (by
    show 2000 < (jsTrim (List.replicate 2001 'a')).length
    rw [jsTrim_replicate_a, List.length_replicate]
    omega)

/-! ## C10 — the health endpoint always reports `authRequired: false` -/

/-- A deployment where API-key authentication is enabled and enforced. -/
def envAuthOn : Env :=
  { OPENAI_API_KEY := some "sk-test", REQUIRE_API_KEY := some "true",
    BUBBL_API_KEYS := some "key-one", ALLOWED_SITE_DOMAINS := none,
    DEFAULT_SITE_URL := none, NODE_ENV := none }

/-- A well-formed chat request carrying no API key. -/
def reqNoKey : ChatRequest :=
  { contentType := some "application/json", apiKey := none,
    body := some { message := some "Hello", messages := none, thread_id := none,
                   site_url := none } }

/-- C10: the GET health endpoint reports `authRequired: false` for every
configuration, including a deployment (`envAuthOn`) where authentication is
enabled and the POST handler rejects a keyless request with 401. -/
theorem c10_health_auth_required :
    (∀ env : Env, (requestGET env).authRequired = false)
    ∧ validateApiKey envAuthOn none = false
    ∧ (requestPOST envAuthOn reqNoKey (ModelOutcome.success "Hi") "r1").status = 401
    ∧ (requestGET envAuthOn).authRequired = false := by
  exact ⟨fun _ => rfl, by decide, by decide, rfl⟩

/-! ## C8 — an exit path that emits no completion log/metric record -/

/-- A correctly configured deployment (provider key set, auth disabled). -/
def env8 : Env :=
  { OPENAI_API_KEY := some "sk-test-8", REQUIRE_API_KEY := some "false",
    BUBBL_API_KEYS := none, ALLOWED_SITE_DOMAINS := none,
    DEFAULT_SITE_URL := none, NODE_ENV := none }

/-- A valid JSON request whose `message` is whitespace only. -/
def req8 : ChatRequest :=
  { contentType := some "application/json", apiKey := none,
    body := some { message := some "   ", messages := none, thread_id := none,
                   site_url := none } }

/-- C8: the empty-after-sanitization exit path of the POST handler returns
400 VALIDATION_ERROR while emitting zero logger records and zero metric
records — contradicting the claim that every exit path emits exactly one
completion log/metric record. -/
theorem c8_silent_exit_path :
    requestPOST env8 req8 (ModelOutcome.success "Hi") "req-8"
      = { status := 400,
          body := RespBody.err .VALIDATION_ERROR "Please enter a message." false,
          loggerRecords := 0, metricRecords := 0, sentMessages := none } := by
  decide

/-! ## C1 — missing domain allow-list in production -/

/-- A production deployment with no `ALLOWED_SITE_DOMAINS` configured. -/
def env1 : Env :=
  { OPENAI_API_KEY := some "sk-test-1", REQUIRE_API_KEY := none, BUBBL_API_KEYS := none,
    ALLOWED_SITE_DOMAINS := none, DEFAULT_SITE_URL := none, NODE_ENV := some "production" }

/-- C1 counterexample: in production mode with no domain allow-list configured
at all, `validateSiteUrl` does not fail closed — it returns the normalized URL
for an arbitrary http(s) domain instead of `null`. -/
theorem c1_counterexample :
    env1.NODE_ENV = some "production"
    ∧ env1.ALLOWED_SITE_DOMAINS = none
    ∧ validateSiteUrl env1 (some "https://example.com") = some "https://example.com" := by
  exact ⟨rfl, rfl, by decide⟩

/-- C1 (amended): when restricted (production) mode is active and no domain
allow-list is configured at all, `validateSiteUrl` allows every URL that
parses with an http/https protocol, returning its normalized form — absence
of configuration behaves like the wildcard open-access mode, not fail-closed. -/
theorem c1_no_allowlist_open_access (env : Env) (u : String) (p : ParsedUrl)
    (hprod : env.NODE_ENV = some "production")
    (hconf : env.ALLOWED_SITE_DOMAINS = none)
    (hparse : parseUrl u = some p)
    (hproto : p.protocol = "http:" ∨ p.protocol = "https:") :
    validateSiteUrl env (some u)
      = some (p.protocol ++ "//" ++ p.hostname ++ normalizePathname p.pathname) := by
  have hu : ¬ u = "" := by
    intro h
    subst h
    exact Option.noConfusion ((show parseUrl "" = none from rfl) ▸ hparse)
  have hdc : domainCheckPasses env p.hostname = true := by
    simp [domainCheckPasses, allowedDomainsOf, hprod, hconf]
  have hpr : (p.protocol == "http:" || p.protocol == "https:") = true := by
    rcases hproto with h | h <;> simp [h]
  simp [validateSiteUrl, hu, hparse, hpr, hdc]

/-- Witness for C1's amended theorem at a concrete production environment. -/
theorem c1_witness :
    validateSiteUrl env1 (some "https://example.com")
      = some ("https:" ++ "//" ++ "example.com" ++ normalizePathname "/") :=
  c1_no_allowlist_open_access env1 "https://example.com"
    ⟨"https:", "example.com", "/", "", ""⟩ rfl rfl (by decide) (Or.inr rfl)

/-! ## C2 — `validateApiKey` -/

/-- An environment whose `BUBBL_API_KEYS` is the empty string, so that the
configured key list is `[""]` (JavaScript `''.split(',')`). -/
def env2 : Env :=
  { OPENAI_API_KEY := some "sk-test-2", REQUIRE_API_KEY := none, BUBBL_API_KEYS := some "",
    ALLOWED_SITE_DOMAINS := none, DEFAULT_SITE_URL := none, NODE_ENV := none }

/-- C2 counterexample: with authentication enabled and the configured key
allow-list equal to `[""]` (non-empty), the presented key `""` is fully equal
to a configured key, yet `validateApiKey` returns `false` (the JavaScript
`if (!providedKey)` falsiness check fires on the empty string) — so the
claimed biconditional fails. -/
theorem c2_counterexample :
    env2.REQUIRE_API_KEY ≠ some "false"
    ∧ keysOf env2 = [""]
    ∧ validateApiKey env2 (some "") = false := by
  exact ⟨by decide, by decide, by decide⟩

/-- C2 (amended): `validateApiKey` returns `true` unconditionally when
authentication is disabled; with authentication enabled it returns `false`
whenever the presented key is absent, *empty*, or the configured key list is
empty, and for a non-empty presented key with a non-empty configured list it
returns `true` exactly when the presented key is fully equal to some
configured key (whole-string equality, never a prefix match). -/
theorem c2_api_key_validation (env : Env) (pk : Option String) :
    (env.REQUIRE_API_KEY = some "false" → validateApiKey env pk = true)
    ∧ (env.REQUIRE_API_KEY ≠ some "false" →
        ((pk = none ∨ pk = some "" ∨ keysOf env = []) → validateApiKey env pk = false)
        ∧ (∀ s, pk = some s → s ≠ "" → keysOf env ≠ [] →
            (validateApiKey env pk = true ↔ s ∈ keysOf env))) := by
  constructor
  · intro h
    simp [validateApiKey, h]
  · intro h
    constructor
    · rintro (rfl | rfl | hk)
      · simp [validateApiKey, h]
      · simp [validateApiKey, h]
      · cases pk with
        | none => simp [validateApiKey, h]
        | some s =>
          by_cases hs : s = ""
          · simp [validateApiKey, h, hs]
          · simp [validateApiKey, h, hs, hk]
    · rintro s rfl hs hk
      have hke : (keysOf env).isEmpty = false := by
        cases hkl : keysOf env with
        | nil => exact absurd hkl hk
        | cons a l => rfl
      simp only [validateApiKey, if_neg h, if_neg hs, hke, Bool.false_eq_true, if_false,
        List.any_eq_true, Bool.and_eq_true, beq_iff_eq]
      constructor
      · rintro ⟨x, hx, -, rfl⟩
        exact hx
      · intro hmem
        exact ⟨s, hmem, rfl, rfl⟩

/-- Witness for C2's amended theorem: a matching key is accepted. -/
theorem c2_witness :
    validateApiKey envAuthOn (some "key-one") = true :=
  (((c2_api_key_validation envAuthOn (some "key-one")).2 (by decide)).2
      "key-one" rfl (by decide) (by decide)).mpr (by decide)

/-! ## C3 — enforced domain allow-list: exact or dot-suffix match only -/

/-- A production deployment enforcing the allow-list `["allowed.com"]`. -/
def env3 : Env :=
  { OPENAI_API_KEY := some "sk-test-3", REQUIRE_API_KEY := none, BUBBL_API_KEYS := none,
    ALLOWED_SITE_DOMAINS := some "allowed.com", DEFAULT_SITE_URL := none,
    NODE_ENV := some "production" }

/-- C3: under an enforced domain allow-list (production mode, a non-empty
configured list without the wildcard), every URL accepted by `validateSiteUrl`
has a hostname that either equals an allowed domain or ends in `"." ++ domain`;
concretely, with `allowed.com` enforced, `https://sub.allowed.com` passes
normalized and `https://notallowed-allowed.com` is rejected. -/
theorem c3_domain_allowlist :
    (∀ (env : Env) (u : String) (p : ParsedUrl) (r : String),
      env.NODE_ENV = some "production" →
      allowedDomainsOf env ≠ [] →
      (allowedDomainsOf env).contains "*" = false →
      parseUrl u = some p →
      validateSiteUrl env (some u) = some r →
      ∃ d ∈ allowedDomainsOf env,
        p.hostname = d ∨ ("." ++ d).data <:+ p.hostname.data)
    ∧ validateSiteUrl env3 (some "https://sub.allowed.com") = some "https://sub.allowed.com"
    ∧ validateSiteUrl env3 (some "https://notallowed-allowed.com") = none := by
  refine ⟨?_, by decide, by decide⟩
  intro env u p r hprod hne hnw hparse hval
  have hu : ¬ u = "" := by
    intro h
    subst h
    exact Option.noConfusion ((show parseUrl "" = none from rfl) ▸ hparse)
  by_cases hdc : domainCheckPasses env p.hostname = true
  · have h1 : (allowedDomainsOf env).isEmpty = false := by
      cases hkl : allowedDomainsOf env with
      | nil => exact absurd hkl hne
      | cons a l => rfl
    unfold domainCheckPasses at hdc
    rw [if_pos hprod] at hdc
    simp only [h1, hnw, Bool.or_self, Bool.false_eq_true, if_false] at hdc
    rw [List.any_eq_true] at hdc
    obtain ⟨d, hd, hcase⟩ := hdc
    rw [Bool.or_eq_true] at hcase
    refine ⟨d, hd, ?_⟩
    cases hcase with
    | inl h => exact Or.inl (beq_iff_eq.mp h)
    | inr h => exact Or.inr (of_decide_eq_true h)
  · rw [Bool.not_eq_true] at hdc
    simp [validateSiteUrl, hu, hparse, hdc, ite_self] at hval

/-- Witness for C3 at the concrete enforced configuration. -/
theorem c3_witness :
    ∃ d ∈ allowedDomainsOf env3,
      "sub.allowed.com" = d ∨ ("." ++ d).data <:+ "sub.allowed.com".data :=
  c3_domain_allowlist.1 env3 "https://sub.allowed.com"
    ⟨"https:", "sub.allowed.com", "/", "", ""⟩ "https://sub.allowed.com"
    rfl (by decide) (by decide) (by decide) (by decide)

/-! ## C9 — the accepted URL is scheme + hostname + path, query and hash stripped -/

/-- A non-production deployment (no allow-list applies). -/
def env9 : Env :=
  { OPENAI_API_KEY := some "sk-test-9", REQUIRE_API_KEY := none, BUBBL_API_KEYS := none,
    ALLOWED_SITE_DOMAINS := none, DEFAULT_SITE_URL := none, NODE_ENV := none }

/-- C9: every URL accepted by `validateSiteUrl` is returned as
`protocol + "//" + hostname + normalized pathname` — the query string and the
fragment never appear in the result, whatever the allow-list outcome;
concretely `https://x.com/path?q=1#frag` normalizes to `https://x.com/path`. -/
theorem c9_normalized_url :
    (∀ (env : Env) (u : String) (p : ParsedUrl) (r : String),
      parseUrl u = some p →
      validateSiteUrl env (some u) = some r →
      r = p.protocol ++ "//" ++ p.hostname ++ normalizePathname p.pathname)
    ∧ validateSiteUrl env9 (some "https://x.com/path?q=1#frag") = some "https://x.com/path" := by
  refine ⟨?_, by decide⟩
  intro env u p r hparse hval
  have hu : ¬ u = "" := by
    intro h
    subst h
    exact Option.noConfusion ((show parseUrl "" = none from rfl) ▸ hparse)
  by_cases hpr : (p.protocol == "http:" || p.protocol == "https:") = true
  · by_cases hdc : domainCheckPasses env p.hostname = true
    · simp only [validateSiteUrl, if_neg hu, hparse, hpr, hdc, Bool.not_true,
        Bool.false_eq_true, if_false, Option.some.injEq] at hval
      exact hval.symm
    · rw [Bool.not_eq_true] at hdc
      simp [validateSiteUrl, hu, hparse, hdc, ite_self] at hval
  · rw [Bool.not_eq_true] at hpr
    simp [validateSiteUrl, hu, hparse, hpr] at hval

/-- Witness for C9 at the concrete example URL. -/
theorem c9_witness :
    "https://x.com/path"
      = "https:" ++ "//" ++ "x.com" ++ normalizePathname "/path" :=
  c9_normalized_url.1 env9 "https://x.com/path?q=1#frag"
    ⟨"https:", "x.com", "/path", "?q=1", "#frag"⟩ "https://x.com/path"
    (by decide) (by decide)

/-! ## Reaching the model-invocation stage -/

/-- A request that passes every validation gate reaches the invocation stage:
under those hypotheses `requestPOST` is `invokeStage` on the validated data. -/
lemma requestPOST_invoke (env : Env) (req : ChatRequest) (b : ChatBody) (m u : String)
    (outcome : ModelOutcome) (rid : String)
    (h1 : openaiKeyMissing env = false)
    (h2 : ctIncludesJson req.contentType = true)
    (h3 : req.body = some b)
    (h4 : validateApiKey env req.apiKey = true)
    (h5 : validateSiteUrl env b.site_url = some u)
    (h6 : b.message = some m)
    (h7 : ¬ m = "")
    (h8 : ¬ (sanitizeMessage m).length = 0) :
    requestPOST env req outcome rid = invokeStage u b (sanitizeMessage m) outcome rid := by
  simp only [requestPOST, h1, h2, h3, h4, h5, h6, Bool.not_true, Bool.false_eq_true, if_false,
    if_neg h7, if_neg h8]

/-! ## C5 — error classification -/

/-- A deployment with no provider credential configured. -/
def env5 : Env :=
  { OPENAI_API_KEY := none, REQUIRE_API_KEY := none, BUBBL_API_KEYS := none,
    ALLOWED_SITE_DOMAINS := none, DEFAULT_SITE_URL := none, NODE_ENV := none }

/-- A correctly configured open-access deployment. -/
def envOk : Env :=
  { OPENAI_API_KEY := some "sk-ok", REQUIRE_API_KEY := some "false", BUBBL_API_KEYS := none,
    ALLOWED_SITE_DOMAINS := none, DEFAULT_SITE_URL := none, NODE_ENV := none }

/-- A well-formed request body with a caller-supplied thread id. -/
def bodyOk : ChatBody :=
  { message := some "Hello", messages := none, thread_id := some "t-42", site_url := none }

/-- A well-formed request carrying `bodyOk`. -/
def reqOk : ChatRequest :=
  { contentType := some "application/json", apiKey := none, body := some bodyOk }

/-- C5: the failure classification of the handler — a missing provider
credential short-circuits to MODEL_ERROR / 503 / non-retryable regardless of
the request and outcome; in the catch block a timeout classifies as
TIMEOUT / 504, a rate-limit signal as RATE_LIMIT / 429, a model-availability
fault as MODEL_ERROR / 503, anything else as UNKNOWN / 500, each of the
latter retryable; and for a request reaching the invocation the thrown error
produces exactly the classified status/code/retryability (the conditions are
stated with the catch block's precedence: timeout, then rate limit, then
model fault). -/
theorem c5_error_classification :
    (∀ (env : Env) (req : ChatRequest) (outcome : ModelOutcome) (rid : String),
      openaiKeyMissing env = true →
      requestPOST env req outcome rid
        = { status := 503,
            body := RespBody.err .MODEL_ERROR "Service configuration error. Please contact support." false,
            loggerRecords := 1, metricRecords := 0, sentMessages := none })
    ∧ (∀ e : JsError, e.message = some "Request timeout" →
        classifyError e = (ERROR_RESPONSES .TIMEOUT, 504))
    ∧ (∀ e : JsError, e.message ≠ some "Request timeout" →
        (optMsgIncludes e.message "rate limit" || e.status == some 429) = true →
        classifyError e = (ERROR_RESPONSES .RATE_LIMIT, 429))
    ∧ (∀ e : JsError, e.message ≠ some "Request timeout" →
        (optMsgIncludes e.message "rate limit" || e.status == some 429) = false →
        optMsgIncludes e.message "model" = true →
        classifyError e = (ERROR_RESPONSES .MODEL_ERROR, 503))
    ∧ (∀ e : JsError, e.message ≠ some "Request timeout" →
        (optMsgIncludes e.message "rate limit" || e.status == some 429) = false →
        optMsgIncludes e.message "model" = false →
        classifyError e = (ERROR_RESPONSES .UNKNOWN, 500))
    ∧ (ERROR_RESPONSES .TIMEOUT).retryable = true
    ∧ (ERROR_RESPONSES .RATE_LIMIT).retryable = true
    ∧ (ERROR_RESPONSES .MODEL_ERROR).retryable = true
    ∧ (ERROR_RESPONSES .UNKNOWN).retryable = true
    ∧ (∀ (env : Env) (req : ChatRequest) (b : ChatBody) (m u rid : String) (e : JsError),
        openaiKeyMissing env = false →
        ctIncludesJson req.contentType = true →
        req.body = some b →
        validateApiKey env req.apiKey = true →
        validateSiteUrl env b.site_url = some u →
        b.message = some m → ¬ m = "" → ¬ (sanitizeMessage m).length = 0 →
        (requestPOST env req (ModelOutcome.threw e) rid).status = (classifyError e).2
        ∧ (requestPOST env req (ModelOutcome.threw e) rid).body
            = RespBody.err (classifyError e).1.code (classifyError e).1.userMessage
                (classifyError e).1.retryable
        ∧ (requestPOST env req (ModelOutcome.threw e) rid).metricRecords = 1) := by
  refine ⟨?_, ?_, ?_, ?_, ?_, rfl, rfl, rfl, rfl, ?_⟩
  · intro env req outcome rid h
    simp [requestPOST, h]
  · intro e h
    simp [classifyError, h]
  · intro e h h2
    simp [classifyError, h, h2]
  · intro e h h2 h3
    simp [classifyError, h, h2, h3]
  · intro e h h2 h3
    simp [classifyError, h, h2, h3]
  · intro env req b m u rid e h1 h2 h3 h4 h5 h6 h7 h8
    rw [requestPOST_invoke env req b m u (ModelOutcome.threw e) rid h1 h2 h3 h4 h5 h6 h7 h8]
    exact ⟨rfl, rfl, rfl⟩

/-- Witness for C5 at one concrete error of each class, the concrete
missing-credential deployment `env5`, and a concrete request reaching the
catch block. -/
theorem c5_witness :
    classifyError ⟨some "Request timeout", none⟩ = (ERROR_RESPONSES .TIMEOUT, 504)
    ∧ classifyError ⟨some "You hit the rate limit", some 429⟩ = (ERROR_RESPONSES .RATE_LIMIT, 429)
    ∧ classifyError ⟨some "The model is overloaded", none⟩ = (ERROR_RESPONSES .MODEL_ERROR, 503)
    ∧ classifyError ⟨some "boom", none⟩ = (ERROR_RESPONSES .UNKNOWN, 500)
    ∧ requestPOST env5 reqOk (ModelOutcome.success "x") "r5"
        = { status := 503,
            body := RespBody.err .MODEL_ERROR "Service configuration error. Please contact support." false,
            loggerRecords := 1, metricRecords := 0, sentMessages := none }
    ∧ (requestPOST envOk reqOk (ModelOutcome.threw ⟨some "boom", none⟩) "r5b").status
        = (classifyError ⟨some "boom", none⟩).2 :=
  ⟨c5_error_classification.2.1 ⟨some "Request timeout", none⟩ rfl,
   c5_error_classification.2.2.1 ⟨some "You hit the rate limit", some 429⟩ (by decide) (by decide),
   c5_error_classification.2.2.2.1 ⟨some "The model is overloaded", none⟩
     (by decide) (by decide) (by decide),
   c5_error_classification.2.2.2.2.1 ⟨some "boom", none⟩ (by decide) (by decide) (by decide),
   c5_error_classification.1 env5 reqOk (ModelOutcome.success "x") "r5" rfl,
   (c5_error_classification.2.2.2.2.2.2.2.2.2 envOk reqOk bodyOk "Hello" "https://bubbl.io" "r5b"
     ⟨some "boom", none⟩ (by decide) (by decide) rfl (by decide) (by decide) rfl
     (by decide) (by decide)).1⟩

/-! ## C6 — prompt assembly: one system message, windowed history, one user message -/

/-- Eight valid prior conversation turns. -/
def eightTurns : List RawMsg :=
  [⟨false, some "user", some "m1"⟩, ⟨false, some "assistant", some "m2"⟩,
   ⟨false, some "user", some "m3"⟩, ⟨false, some "assistant", some "m4"⟩,
   ⟨false, some "user", some "m5"⟩, ⟨false, some "assistant", some "m6"⟩,
   ⟨false, some "user", some "m7"⟩, ⟨false, some "assistant", some "m8"⟩]

set_option maxRecDepth 8000 in
/-- C6: for every history, destination URL, new message and positive window
size `k`, the assembled prompt is exactly one system message, followed by the
last at-most-`k` entries of the *filtered* history in their original order
(exactly `k` when enough valid entries exist, so invalid entries never
displace valid ones), followed by one user message; with 8 valid turns and
the configured window `contextMessages = 5` the prompt has exactly
`1 + 5 + 1 = 7` entries, using the most recent 5. The positivity hypothesis
reflects that the deployed window size is the constant 5 (JavaScript
`slice(-0)` would return the whole array, but no such configuration exists
in the source). -/
theorem c6_prompt_assembly :
    (∀ (siteUrl : String) (messages : Option (List RawMsg)) (sanitized : String) (k : Nat),
      1 ≤ k →
      ∃ mid : List RawMsg,
        assembleConversation siteUrl messages sanitized k
          = Entry.system (systemPrompt siteUrl) :: mid.map Entry.hist ++ [Entry.user sanitized]
        ∧ mid.length ≤ k
        ∧ mid <:+ filterValidMessages messages
        ∧ (k ≤ (filterValidMessages messages).length → mid.length = k)
        ∧ (∀ mm ∈ mid, isValidHistoryMsg mm = true))
    ∧ assembleConversation "https://bubbl.io" (some eightTurns) "hello" contextMessages
        = Entry.system (systemPrompt "https://bubbl.io")
            :: (eightTurns.drop 3).map Entry.hist ++ [Entry.user "hello"]
    ∧ (assembleConversation "https://bubbl.io" (some eightTurns) "hello" contextMessages).length
        = 7 := by
  refine ⟨?_, by decide, by decide⟩
  intro siteUrl messages sanitized k hk
  have hk0 : ¬ k = 0 := by omega
  refine ⟨jsSliceLast (filterValidMessages messages) k, rfl, ?_, ?_, ?_, ?_⟩
  · unfold jsSliceLast
    rw [if_neg hk0, List.length_drop]
    omega
  · unfold jsSliceLast
    rw [if_neg hk0]
    exact List.drop_suffix _ _
  · intro hlen
    unfold jsSliceLast
    rw [if_neg hk0, List.length_drop]
    omega
  · intro mm hmm
    have hmem : mm ∈ filterValidMessages messages := by
      unfold jsSliceLast at hmm
      rw [if_neg hk0] at hmm
      exact List.mem_of_mem_drop hmm
    cases messages with
    | none => simp [filterValidMessages] at hmem
    | some ms => exact (List.mem_filter.mp hmem).2

/-- Witness for C6 at the 8-turn history and window 5. -/
theorem c6_witness :
    ∃ mid : List RawMsg,
      assembleConversation "https://bubbl.io" (some eightTurns) "hello" 5
        = Entry.system (systemPrompt "https://bubbl.io") :: mid.map Entry.hist
            ++ [Entry.user "hello"]
      ∧ mid.length ≤ 5
      ∧ mid <:+ filterValidMessages (some eightTurns)
      ∧ (5 ≤ (filterValidMessages (some eightTurns)).length → mid.length = 5)
      ∧ (∀ mm ∈ mid, isValidHistoryMsg mm = true) :=
  c6_prompt_assembly.1 "https://bubbl.io" (some eightTurns) "hello" 5 (by decide)

/-! ## C7 — response `thread_id`: caller-supplied echo vs generated request id -/

/-- A well-formed request body whose caller-supplied `thread_id` is the empty
string — present in the request, but falsy in JavaScript. -/
def body7 : ChatBody :=
  { message := some "Hello", messages := none, thread_id := some "", site_url := none }

/-- A request carrying `body7`. -/
def req7 : ChatRequest :=
  { contentType := some "application/json", apiKey := none, body := some body7 }

/-- C7 counterexample: a successful request whose body carries the
caller-supplied `thread_id` value `""` — the response's thread id is the
generated `requestId` `"req-7"`, not the caller-supplied value, because
`thread_id || requestId` treats the empty string as falsy. -/
theorem c7_counterexample :
    body7.thread_id = some ""
    ∧ (requestPOST envOk req7 (ModelOutcome.success "Hi there!") "req-7").body
        = RespBody.ok "Hi there!" "req-7"
    ∧ "req-7" ≠ "" := by
  exact ⟨rfl, by decide, by decide⟩

/-- C7 (amended): on every successful request the response's `thread_id` is
`responseThreadId thread_id requestId`: it equals the caller-supplied
`thread_id` whenever one is present *and non-empty*, and equals the generated
`requestId` when the field is absent — or present but empty (falsy). -/
theorem c7_thread_id_amended :
    (∀ (t rid : String), ¬ t = "" → responseThreadId (some t) rid = t)
    ∧ (∀ rid : String, responseThreadId none rid = rid)
    ∧ (∀ rid : String, responseThreadId (some "") rid = rid)
    ∧ (∀ (env : Env) (req : ChatRequest) (b : ChatBody) (m u rid text : String),
        openaiKeyMissing env = false →
        ctIncludesJson req.contentType = true →
        req.body = some b →
        validateApiKey env req.apiKey = true →
        validateSiteUrl env b.site_url = some u →
        b.message = some m → ¬ m = "" → ¬ (sanitizeMessage m).length = 0 →
        ∃ rt, (requestPOST env req (ModelOutcome.success text) rid).body
            = RespBody.ok rt (responseThreadId b.thread_id rid)) := by
  refine ⟨?_, fun _ => rfl, fun _ => rfl, ?_⟩
  · intro t rid ht
    simp [responseThreadId, ht]
  · intro env req b m u rid text h1 h2 h3 h4 h5 h6 h7 h8
    rw [requestPOST_invoke env req b m u (ModelOutcome.success text) rid h1 h2 h3 h4 h5 h6 h7 h8]
    exact ⟨_, rfl⟩

/-- Witness for C7's amended theorem at a concrete non-empty thread id. -/
theorem c7_witness :
    ∃ rt, (requestPOST envOk reqOk (ModelOutcome.success "Hi!") "rid-w7").body
        = RespBody.ok rt (responseThreadId bodyOk.thread_id "rid-w7") :=
  c7_thread_id_amended.2.2.2 envOk reqOk bodyOk "Hello" "https://bubbl.io" "rid-w7" "Hi!"
    (by decide) (by decide) rfl (by decide) (by decide) rfl (by decide) (by decide)
